import Mathlib

/-!
Verification of the event-driven achievement and workout-log reconciliation
pipeline of the FitSync progress service: the event codec, the event
publisher (src/utils/event_publisher.py), the two reconciliation handlers
and the subscription loop (src/main.py).

Python dict values that travel between the bus, the handlers and the store
are modelled by the inductive type Json below.  The wire format is a list
of natural-number symbols.  Database rows are modelled by explicit
structures; the SQL NULL of a nullable column is modelled by Option.
-/

-- Structured payload data: the values Python's json module can carry.
-- Arrays and objects are given by the mutually inductive list types JArr
-- and JObj so that mutual structural induction is available.
mutual

inductive Json where
  | null : Json
  | bool (b : Bool) : Json
  | num (n : Int) : Json
  | str (s : String) : Json
  | arr (xs : JArr) : Json
  | obj (fs : JObj) : Json

inductive JArr where
  | nil : JArr
  | cons (hd : Json) (tl : JArr) : JArr

inductive JObj where
  | nil : JObj
  | cons (key : String) (val : Json) (tl : JObj) : JObj

end

/-- Number of elements of a Json array. -/
def JArr.length : JArr → Nat
  | .nil => 0
  | .cons _ tl => JArr.length tl + 1

/-- Number of fields of a Json object. -/
def JObj.length : JObj → Nat
  | .nil => 0
  | .cons _ _ tl => JObj.length tl + 1

/-- Build a Json object from a list of key-value pairs. -/
def JObj.ofList : List (String × Json) → JObj
  | [] => .nil
  | (k, v) :: tl => .cons k v (JObj.ofList tl)

/-- First value bound to a key in a Json object (Python dicts have unique
keys, so first and only). -/
def lookupKey : JObj → String → Option Json
  | .nil, _ => none
  | .cons k v tl, key => if k = key then some v else lookupKey tl key

/-- Error values for the Python exception paths that the source code
catches: AttributeError from calling .get on a non-dict, errors raised by
the database driver, and errors raised by the bus client on publish. -/
inductive PyErr where
  | attributeError : PyErr
  | storeError : PyErr
  | busError : PyErr

/-- Python's d.get(key, default): returns the value bound to the key, or
the default when the key is absent; raises AttributeError when the
receiver is not a dict. -/
def pyGet (j : Json) (key : String) (dflt : Json) : Except PyErr Json :=
  match j with
  | .obj fs => .ok ((lookupKey fs key).getD dflt)
  | _ => .error .attributeError

/-- The bus-message envelope built by publish_event: a dict with the keys
event, timestamp, correlation_id and data, in that insertion order. -/
def mkEnvelope (event timestamp correlation : String) (data : Json) : Json :=
  Json.obj (JObj.cons "event" (Json.str event)
    (JObj.cons "timestamp" (Json.str timestamp)
      (JObj.cons "correlation_id" (Json.str correlation)
        (JObj.cons "data" data JObj.nil))))

/-!
Event Codec.  Modelled from the spec: the serialization itself is Python's
json library (json.dumps and json.loads), which is not part of this
repository; the spec's contract (section 4.1) asks for a deterministic
wire format with a lossless round trip for every structured payload, and
a decode that fails on malformed input.  The wire is a list of
natural-number symbols; every value is written tag-first and collections
are length-prefixed.
-/

mutual

def encodeJson : Json → List Nat
  | .null => [0]
  | .bool b => [1, cond b 1 0]
  | .num n => [2, if n < 0 then 1 else 0, n.natAbs]
  | .str s => 3 :: s.length :: s.data.map Char.toNat
  | .arr xs => 4 :: JArr.length xs :: encodeArr xs
  | .obj fs => 5 :: JObj.length fs :: encodeObj fs

def encodeArr : JArr → List Nat
  | .nil => []
  | .cons j tl => encodeJson j ++ encodeArr tl

def encodeObj : JObj → List Nat
  | .nil => []
  | .cons k v tl => (k.length :: k.data.map Char.toNat) ++ encodeJson v ++ encodeObj tl

end

-- depthJson: nesting depth of a Json value; used to pick a sufficient
-- fuel for the decoder.
mutual

def depthJson : Json → Nat
  | .null => 1
  | .bool _ => 1
  | .num _ => 1
  | .str _ => 1
  | .arr xs => depthArr xs + 1
  | .obj fs => depthObj fs + 1

def depthArr : JArr → Nat
  | .nil => 0
  | .cons j tl => max (depthJson j) (depthArr tl)

def depthObj : JObj → Nat
  | .nil => 0
  | .cons _ v tl => max (depthJson v) (depthObj tl)

end

/-- Read a run of n character codes off the wire. -/
def decodeChars : Nat → List Nat → Option (List Char × List Nat)
  | 0, w => some ([], w)
  | _ + 1, [] => none
  | n + 1, c :: w =>
    match decodeChars n w with
    | some (cs, r) => some (Char.ofNat c :: cs, r)
    | none => none

-- decodeJson parses one Json value off the wire; the fuel bounds the
-- nesting depth.  decodeList and decodeFields parse a counted run of
-- array elements and of object fields.
mutual

def decodeJson : Nat → List Nat → Option (Json × List Nat)
  | 0, _ => none
  | fuel + 1, w =>
    match w with
    | 0 :: r => some (.null, r)
    | 1 :: b :: r => some (.bool (b == 1), r)
    | 2 :: s :: m :: r => some (.num (if s == 1 then -(m : Int) else (m : Int)), r)
    | 3 :: n :: r =>
      match decodeChars n r with
      | some (cs, r1) => some (.str (String.mk cs), r1)
      | none => none
    | 4 :: n :: r =>
      match decodeList fuel n r with
      | some (xs, r1) => some (.arr xs, r1)
      | none => none
    | 5 :: n :: r =>
      match decodeFields fuel n r with
      | some (fs, r1) => some (.obj fs, r1)
      | none => none
    | _ => none
termination_by fuel _ => (fuel, 0, 0)

def decodeList : Nat → Nat → List Nat → Option (JArr × List Nat)
  | _, 0, w => some (.nil, w)
  | fuel, n + 1, w =>
    match decodeJson fuel w with
    | some (j, r) =>
      match decodeList fuel n r with
      | some (tl, r1) => some (.cons j tl, r1)
      | none => none
    | none => none
termination_by fuel n _ => (fuel, 1, n)

def decodeFields : Nat → Nat → List Nat → Option (JObj × List Nat)
  | _, 0, w => some (.nil, w)
  | fuel, n + 1, w =>
    match w with
    | klen :: r =>
      match decodeChars klen r with
      | some (kcs, r1) =>
        match decodeJson fuel r1 with
        | some (v, r2) =>
          match decodeFields fuel n r2 with
          | some (tl, r3) => some (.cons (String.mk kcs) v tl, r3)
          | none => none
        | none => none
      | none => none
    | [] => none
termination_by fuel n _ => (fuel, 1, n)

end

/-- Serialize: the codec's encode direction. -/
def encode (j : Json) : List Nat := encodeJson j

/-- Deserialize: the codec's decode direction.  The whole input must be
consumed; a wire that is not the serialization of a value yields none,
modelling the MalformedPayload failure of json.loads. -/
def decode (w : List Nat) : Option Json :=
  match decodeJson (w.length + 1) w with
  | some (j, []) => some j
  | _ => none

/-!
Data model.  Rows of the workout_logs and achievements tables created by
the reconciliation handlers, per the CREATE TABLE statements in
src/main.py (run_migrations).  Row ids (UUIDs generated by the store) are
modelled as naturals drawn from a per-database counter; a SQL NULL in a
nullable column is Option.none.
-/

structure WorkoutLog where
  id : Nat
  client_id : String
  booking_id : Option String
  workout_date : String
  exercises_completed : Json
  total_duration_minutes : Option Int
  trainer_notes : Option String

structure Achievement where
  id : Nat
  client_id : String
  achievement_type : String
  title : String
  description : String
  badge_icon : String

structure DB where
  workout_logs : List WorkoutLog
  achievements : List Achievement
  nextId : Nat

/-- The process state the pipeline touches: the store, the list of
messages delivered to the bus so far (channel and wire bytes), the
generator state for fresh correlation ids, and the current clock
reading. -/
structure World where
  db : DB
  bus : List (String × List Nat)
  uuidCtr : Nat
  now : String

/-- A parameter bound to a nullable UUID column: the driver accepts SQL
NULL or a string, and raises on anything else. -/
def asUuidParam : Json → Except PyErr (Option String)
  | .null => .ok none
  | .str s => .ok (some s)
  | _ => .error .storeError

/-- A parameter bound to a NOT NULL text-like column (uuid, date, text):
the driver raises on a non-string, and the store rejects NULL. -/
def asReqStr : Json → Except PyErr String
  | .str s => .ok s
  | _ => .error .storeError

/-- A parameter bound to a nullable integer column. -/
def asIntParam : Json → Except PyErr (Option Int)
  | .null => .ok none
  | .num n => .ok (some n)
  | _ => .error .storeError

/-- A parameter bound to a nullable text column. -/
def asTextParam : Json → Except PyErr (Option String)
  | .null => .ok none
  | .str s => .ok (some s)
  | _ => .error .storeError

/-- The handler's idempotency query, SELECT id FROM workout_logs WHERE
booking_id = $1.  SQL equality with NULL is never true, so a NULL
parameter matches no row; a non-string parameter is rejected by the
driver before the query runs. -/
def findWorkoutLog (db : DB) (bid : Json) : Except PyErr (Option Nat) :=
  match bid with
  | .null => .ok none
  | .str b => .ok ((db.workout_logs.find? (fun r => r.booking_id == some b)).map (fun r => r.id))
  | _ => .error .storeError

/-- INSERT INTO workout_logs, with exercises_completed fixed to the empty
list exactly as the handler passes json.dumps of the empty list. -/
def insertWorkoutLog (db : DB) (cid bid wdate dur notes : Json) : Except PyErr DB :=
  match asReqStr cid with
  | .error e => .error e
  | .ok c =>
    match asUuidParam bid with
    | .error e => .error e
    | .ok b =>
      match asReqStr wdate with
      | .error e => .error e
      | .ok d =>
        match asIntParam dur with
        | .error e => .error e
        | .ok dm =>
          match asTextParam notes with
          | .error e => .error e
          | .ok tn =>
            .ok { db with
              workout_logs := db.workout_logs ++
                [⟨db.nextId, c, b, d, Json.arr JArr.nil, dm, tn⟩],
              nextId := db.nextId + 1 }

/-- INSERT INTO achievements ... RETURNING *: achievement_type and
badge_icon are the literals of the SQL statement in the handler. -/
def insertAchievement (db : DB) (cid : Json) (title descr : String) :
    Except PyErr (DB × Achievement) :=
  match asReqStr cid with
  | .ok c =>
    .ok ({ db with
            achievements := db.achievements ++
              [⟨db.nextId, c, "program_completion", title, descr, "program_complete.png"⟩],
            nextId := db.nextId + 1 },
         ⟨db.nextId, c, "program_completion", title, descr, "program_complete.png"⟩)
  | .error e => .error e

/-- Number of workout-log rows holding a given non-null booking id. -/
def bookingCount (db : DB) (b : String) : Nat :=
  (db.workout_logs.filter (fun r => r.booking_id == some b)).length

/-- The spec's invariant: at most one WorkoutLog exists per non-null
booking_id. -/
def BookingInvariant (db : DB) : Prop :=
  ∀ b : String, bookingCount db b ≤ 1

/-!
Event Publisher (src/utils/event_publisher.py).  str(uuid.uuid4()) is
modelled by an injective source of non-empty identifiers indexed by the
World's generator counter, which advances exactly when the source code
evaluates uuid.uuid4().  Delivery by the bus client either succeeds or
raises; the raise is injected through the busOk flag.
-/

/-- Fresh identifier source standing for str(uuid.uuid4()): non-empty and
distinct for distinct generator states. -/
def genUuid (n : Nat) : String :=
  "uuid-" ++ String.mk (List.replicate n 'x')

/-- The try block of publish_event: build the envelope (the or-expression
regenerates the correlation id when the caller's value is None or the
falsy empty string), then deliver.  A failing delivery raises after the
id was already generated, so the error carries the world at raise time. -/
def publish_event_try (busOk : Bool) (w : World) (channel : String) (event_data : Json)
    (correlation_id : Option String) : Except (PyErr × World) (World × String) :=
  let corr :=
    match correlation_id with
    | some c => if c = "" then genUuid w.uuidCtr else c
    | none => genUuid w.uuidCtr
  let ctr :=
    match correlation_id with
    | some c => if c = "" then w.uuidCtr + 1 else w.uuidCtr
    | none => w.uuidCtr + 1
  let w1 : World := { w with uuidCtr := ctr }
  if busOk then
    .ok ({ w1 with bus := w1.bus ++ [(channel, encode (mkEnvelope channel w.now corr event_data))] }, corr)
  else
    .error (.busError, w1)

/-- publish_event: the try block above under the except clause that logs
the failure and falls off the function, returning Python's implicit None,
modelled as Option.none. -/
def publish_event (busOk : Bool) (w : World) (channel : String) (event_data : Json)
    (correlation_id : Option String) : World × Option String :=
  match publish_event_try busOk w channel event_data correlation_id with
  | .ok (w1, c) => (w1, some c)
  | .error (_, w1) => (w1, none)

/-- The achievement.earned payload shaped by publish_achievement_earned:
identity fields coerced to strings.  The description and badge_icon
fields of the RETURNING * row are always present, so the .get defaults of
the source are never taken. -/
def achievementPayload (a : Achievement) : Json :=
  Json.obj (JObj.cons "achievement_id" (Json.str (toString a.id))
    (JObj.cons "client_id" (Json.str a.client_id)
      (JObj.cons "type" (Json.str a.achievement_type)
        (JObj.cons "title" (Json.str a.title)
          (JObj.cons "description" (Json.str a.description)
            (JObj.cons "badge_icon" (Json.str a.badge_icon) JObj.nil))))))

/-- publish_achievement_earned. -/
def publish_achievement_earned (busOk : Bool) (w : World) (a : Achievement)
    (correlation_id : Option String) : World × Option String :=
  publish_event busOk w "achievement.earned" (achievementPayload a) correlation_id

/-- publish_milestone_reached: payload passed through unchanged. -/
def publish_milestone_reached (busOk : Bool) (w : World) (milestone_data : Json)
    (correlation_id : Option String) : World × Option String :=
  publish_event busOk w "milestone.reached" milestone_data correlation_id

/-- publish_progress_updated: payload passed through unchanged. -/
def publish_progress_updated (busOk : Bool) (w : World) (progress_data : Json)
    (correlation_id : Option String) : World × Option String :=
  publish_event busOk w "progress.updated" progress_data correlation_id

/-!
Reconciliation Handlers (src/main.py).  Each handler body is the try
block, written as explicit matches on every Python expression that can
raise; the wrapper is the except clause that logs and swallows.  In the
source no state change precedes a raise point inside a body (the single
INSERT is the last effect, and publish_event never raises), so the
swallowed-error result is the unchanged world.
-/

/-- Try block of handle_booking_completed: extract fields, run the
idempotency query, and insert a stub row when no log exists for the
booking.  The driver returns UUID objects, which are always truthy, so
the source's truthiness test on the fetched id is a some-check. -/
def handle_booking_completed_body (w : World) (ev : Json) : Except PyErr World :=
  match pyGet ev "data" (Json.obj JObj.nil) with
  | .error e => .error e
  | .ok data =>
    match pyGet data "booking_id" Json.null with
    | .error e => .error e
    | .ok bid =>
      match findWorkoutLog w.db bid with
      | .error e => .error e
      | .ok (some _) => .ok w
      | .ok none =>
        match pyGet data "client_id" Json.null with
        | .error e => .error e
        | .ok cid =>
          match pyGet data "workout_date" Json.null with
          | .error e => .error e
          | .ok wdate =>
            match pyGet data "duration_minutes" (Json.num 60) with
            | .error e => .error e
            | .ok dur =>
              match pyGet data "trainer_notes" (Json.str "") with
              | .error e => .error e
              | .ok notes =>
                match insertWorkoutLog w.db cid bid wdate dur notes with
                | .error e => .error e
                | .ok db1 => .ok { w with db := db1 }

/-- handle_booking_completed: the body under its catch-all except clause. -/
def handle_booking_completed (w : World) (ev : Json) : World :=
  match handle_booking_completed_body w ev with
  | .ok w1 => w1
  | .error _ => w

/-- Try block of handle_program_completed: the .get on program_id is
evaluated for the log line before anything else touches the store, then
the achievement row is inserted unconditionally and, the RETURNING * row
being always truthy, publish_achievement_earned is called on it. -/
def handle_program_completed_body (busOk : Bool) (w : World) (ev : Json) : Except PyErr World :=
  match pyGet ev "data" (Json.obj JObj.nil) with
  | .error e => .error e
  | .ok data =>
    match pyGet data "program_id" Json.null with
    | .error e => .error e
    | .ok _ =>
      match pyGet data "client_id" Json.null with
      | .error e => .error e
      | .ok cid =>
        match insertAchievement w.db cid "Completed Training Program"
            "You\x27ve successfully completed your training program!" with
        | .error e => .error e
        | .ok (db1, row) =>
          .ok (publish_achievement_earned busOk { w with db := db1 } row none).1

/-- handle_program_completed: the body under its catch-all except clause. -/
def handle_program_completed (busOk : Bool) (w : World) (ev : Json) : World :=
  match handle_program_completed_body busOk w ev with
  | .ok w1 => w1
  | .error _ => w

/-!
Subscription Loop (src/main.py, subscribe_to_events).  A delivered pubsub
message; the loop reacts only to messages whose declared type is a data
message, decodes their payload under a per-message try that logs and
continues on any failure, and dispatches on the channel name.
-/

structure BusMessage where
  mtype : String
  channel : String
  payload : List Nat

/-- One iteration of the subscription loop on a received message. -/
def processMessage (busOk : Bool) (w : World) (m : BusMessage) : World :=
  if m.mtype = "message" then
    match decode m.payload with
    | none => w
    | some ev =>
      if m.channel = "booking.completed" then handle_booking_completed w ev
      else if m.channel = "program.completed" then handle_program_completed busOk w ev
      else w
  else w

/-- The subscription loop over a finite stretch of its delivered message
sequence: every message is processed in order and none terminates the
loop. -/
def runLoop (busOk : Bool) (w : World) (msgs : List BusMessage) : World :=
  msgs.foldl (processMessage busOk) w

/-- An initial world with an empty store, an empty bus log and a fresh id
generator. -/
def emptyWorld : World :=
  { db := { workout_logs := [], achievements := [], nextId := 0 },
    bus := [], uuidCtr := 0, now := "2025-01-15T10:00:00" }

/-- A well-formed booking.completed payload that omits duration_minutes
and trainer_notes. -/
def sampleBookingData : Json :=
  Json.obj (JObj.cons "booking_id" (Json.str "b1")
    (JObj.cons "client_id" (Json.str "c1")
      (JObj.cons "workout_date" (Json.str "2025-01-15") JObj.nil)))

/-- A decoded booking.completed event wrapping sampleBookingData. -/
def sampleBookingEvent : Json :=
  Json.obj (JObj.cons "data" sampleBookingData JObj.nil)

/-- A booking.completed payload with no booking_id at all. -/
def sampleNullBookingData : Json :=
  Json.obj (JObj.cons "client_id" (Json.str "c1")
    (JObj.cons "workout_date" (Json.str "2025-01-15") JObj.nil))

/-- A decoded booking.completed event wrapping sampleNullBookingData. -/
def sampleNullBookingEvent : Json :=
  Json.obj (JObj.cons "data" sampleNullBookingData JObj.nil)

/-- A well-formed program.completed payload. -/
def sampleProgramData : Json :=
  Json.obj (JObj.cons "client_id" (Json.str "c1")
    (JObj.cons "program_id" (Json.str "p1") JObj.nil))

/-- A decoded program.completed event wrapping sampleProgramData. -/
def sampleProgramEvent : Json :=
  Json.obj (JObj.cons "data" sampleProgramData JObj.nil)

/-- A data message whose payload is not a valid serialization. -/
def malformedMessage : BusMessage :=
  ⟨"message", "booking.completed", [99]⟩

/-- A data message carrying the sample booking event. -/
def validBookingMessage : BusMessage :=
  ⟨"message", "booking.completed", encode sampleBookingEvent⟩

/-!
Codec round-trip: helper lemmas, then the mutual induction.
-/

theorem decodeChars_encode (cs : List Char) (rest : List Nat) :
    decodeChars cs.length (cs.map Char.toNat ++ rest) = some (cs, rest) := by
  induction cs with
  | nil => rfl
  | cons c tl ih => simp [decodeChars, ih, Char.ofNat_toNat]

theorem string_mk_data (s : String) : String.mk s.data = s := rfl

theorem decodeChars_encode_str (s : String) (rest : List Nat) :
    decodeChars s.length (s.data.map Char.toNat ++ rest) = some (s.data, rest) := by
  rw [show s.length = s.data.length from rfl]
  exact decodeChars_encode s.data rest

theorem one_le_depthJson (j : Json) : 1 ≤ depthJson j := by
  cases j <;> simp [depthJson]

mutual

theorem rtJson (j : Json) : ∀ (fuel : Nat) (rest : List Nat), depthJson j ≤ fuel →
    decodeJson fuel (encodeJson j ++ rest) = some (j, rest) := by
  cases j with
  | null =>
    intro fuel rest h
    match fuel with
    | f + 1 => simp [encodeJson, decodeJson]
  | bool b =>
    intro fuel rest h
    match fuel with
    | f + 1 => cases b <;> simp [encodeJson, decodeJson]
  | num n =>
    intro fuel rest h
    match fuel with
    | f + 1 =>
      simp [encodeJson, decodeJson]
      rcases lt_or_le n 0 with hn | hn
      · rw [if_pos hn, abs_of_neg hn]
        ring
      · rw [if_neg (not_lt.mpr hn), abs_of_nonneg hn]
  | str s =>
    intro fuel rest h
    match fuel with
    | f + 1 => simp [encodeJson, decodeJson, decodeChars_encode_str, string_mk_data]
  | arr xs =>
    intro fuel rest h
    match fuel, h with
    | f + 1, h =>
      have hxs : depthArr xs ≤ f := by
        simp [depthJson] at h
        omega
      simp [encodeJson, decodeJson, rtArr xs f rest hxs]
  | obj fs =>
    intro fuel rest h
    match fuel, h with
    | f + 1, h =>
      have hfs : depthObj fs ≤ f := by
        simp [depthJson] at h
        omega
      simp [encodeJson, decodeJson, rtObj fs f rest hfs]

theorem rtArr (xs : JArr) : ∀ (fuel : Nat) (rest : List Nat), depthArr xs ≤ fuel →
    decodeList fuel (JArr.length xs) (encodeArr xs ++ rest) = some (xs, rest) := by
  cases xs with
  | nil =>
    intro fuel rest _
    simp [encodeArr, JArr.length, decodeList]
  | cons j tl =>
    intro fuel rest h
    have hj : depthJson j ≤ fuel := le_trans (le_max_left _ _) h
    have htl : depthArr tl ≤ fuel := le_trans (le_max_right _ _) h
    have h1 := rtJson j fuel (encodeArr tl ++ rest) hj
    have h2 := rtArr tl fuel rest htl
    simp [encodeArr, JArr.length, decodeList, List.append_assoc, h1, h2]

theorem rtObj (fs : JObj) : ∀ (fuel : Nat) (rest : List Nat), depthObj fs ≤ fuel →
    decodeFields fuel (JObj.length fs) (encodeObj fs ++ rest) = some (fs, rest) := by
  cases fs with
  | nil =>
    intro fuel rest _
    simp [encodeObj, JObj.length, decodeFields]
  | cons k v tl =>
    intro fuel rest h
    have hv : depthJson v ≤ fuel := le_trans (le_max_left _ _) h
    have htl : depthObj tl ≤ fuel := le_trans (le_max_right _ _) h
    have h1 := rtJson v fuel (encodeObj tl ++ rest) hv
    have h2 := rtObj tl fuel rest htl
    simp [encodeObj, JObj.length, decodeFields, List.append_assoc,
      decodeChars_encode_str, string_mk_data, h1, h2]

end

mutual

theorem depthJson_le_encLen (j : Json) : depthJson j ≤ (encodeJson j).length := by
  cases j with
  | null => simp [depthJson, encodeJson]
  | bool b => simp [depthJson, encodeJson]
  | num n => simp [depthJson, encodeJson]
  | str s => simp [depthJson, encodeJson]
  | arr xs =>
    have := depthArr_le_encLen xs
    simp [depthJson, encodeJson]
    omega
  | obj fs =>
    have := depthObj_le_encLen fs
    simp [depthJson, encodeJson]
    omega

theorem depthArr_le_encLen (xs : JArr) : depthArr xs ≤ (encodeArr xs).length := by
  cases xs with
  | nil => simp [depthArr, encodeArr]
  | cons j tl =>
    have h1 := depthJson_le_encLen j
    have h2 := depthArr_le_encLen tl
    simp [depthArr, encodeArr]
    omega

theorem depthObj_le_encLen (fs : JObj) : depthObj fs ≤ (encodeObj fs).length := by
  cases fs with
  | nil => simp [depthObj, encodeObj]
  | cons k v tl =>
    have h1 := depthJson_le_encLen v
    have h2 := depthObj_le_encLen tl
    simp [depthObj, encodeObj]
    omega

end

/-- Lossless round trip of the codec on any value. -/
theorem decode_encode (j : Json) : decode (encode j) = some j := by
  unfold decode encode
  have h := rtJson j ((encodeJson j).length + 1) []
    (le_trans (depthJson_le_encLen j) (by omega))
  rw [List.append_nil] at h
  simp [h]

/-!
Handler structure lemmas.
-/

theorem asUuidParam_cases (bid : Json) (bOpt : Option String)
    (h : asUuidParam bid = .ok bOpt) :
    bOpt = none ∨ ∃ s, bid = Json.str s ∧ bOpt = some s := by
  cases bid <;> simp [asUuidParam] at h
  · exact Or.inl h.symm
  · exact Or.inr ⟨_, rfl, h.symm⟩

/-- Every run of the booking handler body either raises, returns the
world unchanged, or appends exactly one workout-log row whose booking id
passed the idempotency query with no hit. -/
theorem handle_booking_body_cases (w : World) (ev : Json) :
    (∃ e, handle_booking_completed_body w ev = .error e) ∨
    handle_booking_completed_body w ev = .ok w ∨
    ∃ (bid : Json) (bOpt : Option String) (c d : String) (dm : Option Int) (tn : Option String),
      findWorkoutLog w.db bid = Except.ok none ∧
      asUuidParam bid = Except.ok bOpt ∧
      handle_booking_completed_body w ev = .ok { w with db := { w.db with
        workout_logs := w.db.workout_logs ++
          [⟨w.db.nextId, c, bOpt, d, Json.arr JArr.nil, dm, tn⟩],
        nextId := w.db.nextId + 1 } } := by
  unfold handle_booking_completed_body
  rcases h1 : pyGet ev "data" (Json.obj JObj.nil) with e | data
  · simp only [h1]
    exact Or.inl ⟨e, rfl⟩
  simp only [h1]
  rcases h2 : pyGet data "booking_id" Json.null with e | bid
  · simp only [h2]
    exact Or.inl ⟨e, rfl⟩
  simp only [h2]
  rcases h3 : findWorkoutLog w.db bid with e | found
  · simp only [h3]
    exact Or.inl ⟨e, rfl⟩
  rcases found with _ | r
  swap
  · simp only [h3]
    exact Or.inr (Or.inl trivial)
  simp only [h3]
  rcases h4 : pyGet data "client_id" Json.null with e | cid
  · simp only [h4]
    exact Or.inl ⟨e, rfl⟩
  simp only [h4]
  rcases h5 : pyGet data "workout_date" Json.null with e | wdate
  · simp only [h5]
    exact Or.inl ⟨e, rfl⟩
  simp only [h5]
  rcases h6 : pyGet data "duration_minutes" (Json.num 60) with e | dur
  · simp only [h6]
    exact Or.inl ⟨e, rfl⟩
  simp only [h6]
  rcases h7 : pyGet data "trainer_notes" (Json.str "") with e | notes
  · simp only [h7]
    exact Or.inl ⟨e, rfl⟩
  simp only [h7]
  unfold insertWorkoutLog
  rcases h8 : asReqStr cid with e | c
  · simp only [h8]
    exact Or.inl ⟨e, rfl⟩
  simp only [h8]
  rcases h9 : asUuidParam bid with e | bOpt
  · simp only [h9]
    exact Or.inl ⟨e, rfl⟩
  simp only [h9]
  rcases h10 : asReqStr wdate with e | d
  · simp only [h10]
    exact Or.inl ⟨e, rfl⟩
  simp only [h10]
  rcases h11 : asIntParam dur with e | dm
  · simp only [h11]
    exact Or.inl ⟨e, rfl⟩
  simp only [h11]
  rcases h12 : asTextParam notes with e | tn
  · simp only [h12]
    exact Or.inl ⟨e, rfl⟩
  simp only [h12]
  exact Or.inr (Or.inr ⟨bid, bOpt, c, d, dm, tn, h3, h9, rfl⟩)

theorem count_append_row (l : List WorkoutLog) (r : WorkoutLog) (b : String) :
    ((l ++ [r]).filter (fun x => x.booking_id == some b)).length
      = (l.filter (fun x => x.booking_id == some b)).length
        + (cond (r.booking_id == some b) 1 0) := by
  rw [List.filter_append, List.length_append]
  congr 1
  simp only [List.filter]
  cases hh : r.booking_id == some b <;> simp [hh]

theorem find_none_iff_count_zero (l : List WorkoutLog) (b : String) :
    l.find? (fun r => r.booking_id == some b) = none ↔
      (l.filter (fun r => r.booking_id == some b)).length = 0 := by
  rw [List.find?_eq_none, List.length_eq_zero, List.filter_eq_nil_iff]

/-- Every single invocation of the booking handler preserves the
invariant that at most one workout log exists per non-null booking id. -/
theorem handle_booking_preserves_invariant (w : World) (ev : Json)
    (h : BookingInvariant w.db) :
    BookingInvariant (handle_booking_completed w ev).db := by
  rcases handle_booking_body_cases w ev with ⟨e, hb⟩ | hb
    | ⟨bid, bOpt, c, d, dm, tn, hfind, hbid, hb⟩
  · simp only [handle_booking_completed, hb]
    exact h
  · simp only [handle_booking_completed, hb]
    exact h
  · simp only [handle_booking_completed, hb]
    intro b
    have hwb := h b
    unfold bookingCount at hwb
    unfold bookingCount
    show ((w.db.workout_logs ++
        [(⟨w.db.nextId, c, bOpt, d, Json.arr JArr.nil, dm, tn⟩ : WorkoutLog)]).filter
        (fun r => r.booking_id == some b)).length ≤ 1
    rw [count_append_row]
    rcases asUuidParam_cases bid bOpt hbid with hnone | ⟨s, hbs, hsome⟩
    · subst hnone
      have hfalse : ((none : Option String) == some b) = false := rfl
      rw [hfalse]
      simpa using hwb
    · subst hbs
      subst hsome
      by_cases hsb : s = b
      · subst hsb
        have hfind2 : w.db.workout_logs.find? (fun r => r.booking_id == some s) = none := by
          simp only [findWorkoutLog, Except.ok.injEq] at hfind
          exact Option.map_eq_none'.mp hfind
        have h0 := (find_none_iff_count_zero w.db.workout_logs s).mp hfind2
        rw [h0]
        cases hh : (some s : Option String) == some s <;> simp
      · have hne : ((some s : Option String) == some b) = false := by
          simp [hsb]
        rw [hne]
        simpa using hwb

theorem pyGet_ok_obj (j : Json) (k : String) (dflt v : Json)
    (h : pyGet j k dflt = .ok v) : ∃ fs, j = Json.obj fs := by
  cases j <;> first | exact ⟨_, rfl⟩ | simp [pyGet] at h

/-- Computation of the booking handler on the insert path: field
extraction succeeds, the idempotency query finds nothing, and all insert
parameters bind. -/
theorem handle_booking_insert (w : World) (ev data bid dur notes : Json)
    (bOpt : Option String) (c d : String) (dm : Option Int) (tn : Option String)
    (hdata : pyGet ev "data" (Json.obj JObj.nil) = .ok data)
    (hb : pyGet data "booking_id" Json.null = .ok bid)
    (hfind : findWorkoutLog w.db bid = .ok none)
    (hc : pyGet data "client_id" Json.null = .ok (Json.str c))
    (hd : pyGet data "workout_date" Json.null = .ok (Json.str d))
    (hdur : pyGet data "duration_minutes" (Json.num 60) = .ok dur)
    (hdm : asIntParam dur = .ok dm)
    (hnotes : pyGet data "trainer_notes" (Json.str "") = .ok notes)
    (htn : asTextParam notes = .ok tn)
    (hbid : asUuidParam bid = .ok bOpt) :
    handle_booking_completed w ev = { w with db := { w.db with
      workout_logs := w.db.workout_logs ++
        [⟨w.db.nextId, c, bOpt, d, Json.arr JArr.nil, dm, tn⟩],
      nextId := w.db.nextId + 1 } } := by
  unfold handle_booking_completed handle_booking_completed_body insertWorkoutLog
  simp only [hdata, hb, hfind, hc, hd, hdur, hnotes, hbid, hdm, htn, asReqStr]

/-- Computation of the booking handler on the no-op path: the idempotency
query returns an existing row id and nothing is written. -/
theorem handle_booking_noop (w : World) (ev data bid : Json) (rid : Nat)
    (hdata : pyGet ev "data" (Json.obj JObj.nil) = .ok data)
    (hb : pyGet data "booking_id" Json.null = .ok bid)
    (hfind : findWorkoutLog w.db bid = .ok (some rid)) :
    handle_booking_completed w ev = w := by
  unfold handle_booking_completed handle_booking_completed_body
  simp only [hdata, hb, hfind]

theorem findWorkoutLog_str_none (db : DB) (b : String)
    (h : bookingCount db b = 0) : findWorkoutLog db (Json.str b) = .ok none := by
  show Except.ok ((db.workout_logs.find? (fun r => r.booking_id == some b)).map
    (fun r => r.id)) = Except.ok none
  rw [(find_none_iff_count_zero db.workout_logs b).mpr h]
  rfl

theorem findWorkoutLog_str_some (db : DB) (b : String)
    (h : bookingCount db b ≠ 0) :
    ∃ rid, findWorkoutLog db (Json.str b) = .ok (some rid) := by
  unfold bookingCount at h
  have hne : db.workout_logs.find? (fun r => r.booking_id == some b) ≠ none := by
    intro hn
    exact h ((find_none_iff_count_zero db.workout_logs b).mp hn)
  obtain ⟨r, hr⟩ := Option.ne_none_iff_exists'.mp hne
  refine ⟨r.id, ?_⟩
  show Except.ok ((db.workout_logs.find? (fun x => x.booking_id == some b)).map
    (fun x => x.id)) = Except.ok (some r.id)
  rw [hr]
  rfl

theorem genUuid_length (n : Nat) : (genUuid n).length = 5 + n := by
  have h5 : "uuid-".length = 5 := rfl
  simp [genUuid, String.length_append, h5]

theorem genUuid_ne_empty (n : Nat) : genUuid n ≠ "" := by
  intro h
  have hl := congrArg String.length h
  rw [genUuid_length] at hl
  simp at hl

theorem genUuid_injective (n m : Nat) (h : genUuid n = genUuid m) : n = m := by
  have hl := congrArg String.length h
  rw [genUuid_length, genUuid_length] at hl
  omega

theorem publish_ach_world (busOk : Bool) (w : World) (a : Achievement)
    (cid : Option String) :
    (publish_achievement_earned busOk w a cid).1.db = w.db ∧
    (publish_achievement_earned busOk w a cid).1.now = w.now ∧
    (publish_achievement_earned busOk w a cid).1.bus = w.bus ∨
    (publish_achievement_earned busOk w a cid).1.db = w.db ∧
    (publish_achievement_earned busOk w a cid).1.now = w.now ∧
    ∃ msg, (publish_achievement_earned busOk w a cid).1.bus = w.bus ++ [msg] := by
  unfold publish_achievement_earned publish_event publish_event_try
  rcases cid with _ | c <;> cases busOk <;> simp

/-- The successful publish of an achievement with no caller-supplied
correlation id: one message appended, the generator advanced. -/
theorem publish_achievement_true (w : World) (a : Achievement) :
    publish_achievement_earned true w a none =
      ({ w with
          bus := w.bus ++ [("achievement.earned",
            encode (mkEnvelope "achievement.earned" w.now (genUuid w.uuidCtr)
              (achievementPayload a)))],
          uuidCtr := w.uuidCtr + 1 },
       some (genUuid w.uuidCtr)) := by
  unfold publish_achievement_earned publish_event publish_event_try
  simp

/-- Computation of the program handler under a well-formed event: one
achievement row inserted, then published. -/
theorem handle_program_insert (busOk : Bool) (w : World) (ev data : Json) (c : String)
    (hdata : pyGet ev "data" (Json.obj JObj.nil) = .ok data)
    (hc : pyGet data "client_id" Json.null = .ok (Json.str c)) :
    handle_program_completed busOk w ev =
      (publish_achievement_earned busOk
        { w with db := { w.db with
            achievements := w.db.achievements ++
              [⟨w.db.nextId, c, "program_completion", "Completed Training Program",
                "You\x27ve successfully completed your training program!",
                "program_complete.png"⟩],
            nextId := w.db.nextId + 1 } }
        ⟨w.db.nextId, c, "program_completion", "Completed Training Program",
          "You\x27ve successfully completed your training program!",
          "program_complete.png"⟩ none).1 := by
  obtain ⟨fs, hfs⟩ := pyGet_ok_obj data "client_id" Json.null (Json.str c) hc
  subst hfs
  simp only [pyGet, Except.ok.injEq] at hc
  unfold handle_program_completed handle_program_completed_body insertAchievement
  simp only [hdata]
  simp only [pyGet]
  simp only [hc]
  simp only [asReqStr]

/-- The program handler's effect on the store alone. -/
theorem handle_program_db (busOk : Bool) (w : World) (ev data : Json) (c : String)
    (hdata : pyGet ev "data" (Json.obj JObj.nil) = .ok data)
    (hc : pyGet data "client_id" Json.null = .ok (Json.str c)) :
    (handle_program_completed busOk w ev).db = { w.db with
      achievements := w.db.achievements ++
        [⟨w.db.nextId, c, "program_completion", "Completed Training Program",
          "You\x27ve successfully completed your training program!",
          "program_complete.png"⟩],
      nextId := w.db.nextId + 1 } ∧
    (handle_program_completed busOk w ev).now = w.now := by
  rw [handle_program_insert busOk w ev data c hdata hc]
  unfold publish_achievement_earned publish_event publish_event_try
  cases busOk <;> simp

/-!
Claim theorems.
-/

/-- C1: delivering booking.completed twice with the same non-null
booking_id (in sequence, by the single subscription loop) leaves exactly
one WorkoutLog row with that booking_id: the second invocation finds the
existing row and performs no insert; moreover every invocation of the
handler preserves the invariant that at most one WorkoutLog exists per
non-null booking_id. -/
theorem booking_completed_idempotent (w : World) (ev data dur notes : Json)
    (b c d : String) (dm : Option Int) (tn : Option String)
    (hdata : pyGet ev "data" (Json.obj JObj.nil) = .ok data)
    (hb : pyGet data "booking_id" Json.null = .ok (Json.str b))
    (hc : pyGet data "client_id" Json.null = .ok (Json.str c))
    (hd : pyGet data "workout_date" Json.null = .ok (Json.str d))
    (hdur : pyGet data "duration_minutes" (Json.num 60) = .ok dur)
    (hdm : asIntParam dur = .ok dm)
    (hnotes : pyGet data "trainer_notes" (Json.str "") = .ok notes)
    (htn : asTextParam notes = .ok tn)
    (hstart : bookingCount w.db b ≤ 1) :
    bookingCount (handle_booking_completed (handle_booking_completed w ev) ev).db b = 1 ∧
    ∀ (w1 : World) (ev1 : Json), BookingInvariant w1.db →
      BookingInvariant (handle_booking_completed w1 ev1).db := by
  refine ⟨?_, fun w1 ev1 h => handle_booking_preserves_invariant w1 ev1 h⟩
  by_cases h0 : bookingCount w.db b = 0
  · have hfind := findWorkoutLog_str_none w.db b h0
    have h1 := handle_booking_insert w ev data (Json.str b) dur notes (some b) c d dm tn
      hdata hb hfind hc hd hdur hdm hnotes htn rfl
    rw [h1]
    have hcnt1 : bookingCount { w with db := { w.db with
        workout_logs := w.db.workout_logs ++
          [(⟨w.db.nextId, c, some b, d, Json.arr JArr.nil, dm, tn⟩ : WorkoutLog)],
        nextId := w.db.nextId + 1 } }.db b = 1 := by
      unfold bookingCount at h0 ⊢
      show ((w.db.workout_logs ++
        [(⟨w.db.nextId, c, some b, d, Json.arr JArr.nil, dm, tn⟩ : WorkoutLog)]).filter
        (fun r => r.booking_id == some b)).length = 1
      rw [count_append_row, h0]
      simp
    obtain ⟨rid, hfind1⟩ := findWorkoutLog_str_some _ b (by rw [hcnt1]; exact one_ne_zero)
    have h2 := handle_booking_noop _ ev data (Json.str b) rid hdata hb hfind1
    rw [h2]
    exact hcnt1
  · have hone : bookingCount w.db b = 1 := by omega
    obtain ⟨rid, hfind⟩ := findWorkoutLog_str_some w.db b h0
    have h1 := handle_booking_noop w ev data (Json.str b) rid hdata hb hfind
    rw [h1, h1]
    exact hone

/-- Witness for C1 at a concrete event and the empty store. -/
theorem booking_completed_idempotent_witness :
    bookingCount (handle_booking_completed (handle_booking_completed emptyWorld
      sampleBookingEvent) sampleBookingEvent).db "b1" = 1 :=
  (booking_completed_idempotent emptyWorld sampleBookingEvent sampleBookingData
    (Json.num 60) (Json.str "") "b1" "c1" "2025-01-15" (some 60) (some "")
    rfl rfl rfl rfl rfl rfl rfl rfl (by decide)).1

/-- C2 counterexample: when the bus delivery raises, publish_event does
not return the caller-supplied correlation id; the except clause logs and
falls off the function, returning the Python None. -/
theorem publish_correlation_counterexample :
    (publish_event false emptyWorld "achievement.earned" Json.null
      (some "custom-correlation-123")).2 ≠ some "custom-correlation-123" := by
  decide

/-- C2 (amended): when the bus delivery succeeds, publish_event returns
exactly the caller-supplied correlation id when a non-empty one is given,
and otherwise (no id, or the falsy empty string) a freshly generated
non-empty identifier, distinct per generator state, advancing the
generator; when the delivery fails it returns no correlation id. -/
theorem publish_returns_correlation_id (w : World) (ch : String) (d : Json)
    (c : String) (hc : c ≠ "") :
    (publish_event true w ch d (some c)).2 = some c ∧
    (publish_event true w ch d none).2 = some (genUuid w.uuidCtr) ∧
    (publish_event true w ch d (some "")).2 = some (genUuid w.uuidCtr) ∧
    genUuid w.uuidCtr ≠ "" ∧
    (publish_event true w ch d none).1.uuidCtr = w.uuidCtr + 1 ∧
    (publish_event false w ch d (some c)).2 = none ∧
    ∀ n m : Nat, genUuid n = genUuid m → n = m := by
  refine ⟨?_, rfl, rfl, genUuid_ne_empty _, rfl, rfl,
    fun n m h => genUuid_injective n m h⟩
  simp [publish_event, publish_event_try, hc]

/-- Witness for the amended C2: the explicit correlation id of the spec
example is returned unchanged on a successful publish. -/
theorem publish_returns_correlation_id_witness :
    (publish_event true emptyWorld "milestone.reached" Json.null
      (some "custom-correlation-123")).2 = some "custom-correlation-123" :=
  (publish_returns_correlation_id emptyWorld "milestone.reached" Json.null
    "custom-correlation-123" (by decide)).1

/-- C3: delivering the same program.completed event twice inserts two
distinct Achievement rows, both of achievement_type program_completion:
the handler performs no idempotency check against prior achievements. -/
theorem program_completed_duplicate_achievements (busOk : Bool) (w : World)
    (ev data : Json) (c : String)
    (hdata : pyGet ev "data" (Json.obj JObj.nil) = .ok data)
    (hc : pyGet data "client_id" Json.null = .ok (Json.str c)) :
    ∃ a1 a2 : Achievement,
      (handle_program_completed busOk (handle_program_completed busOk w ev) ev).db.achievements
        = w.db.achievements ++ [a1, a2] ∧
      a1.id ≠ a2.id ∧
      a1.achievement_type = "program_completion" ∧
      a2.achievement_type = "program_completion" := by
  obtain ⟨hdb1, _⟩ := handle_program_db busOk w ev data c hdata hc
  obtain ⟨hdb2, _⟩ :=
    handle_program_db busOk (handle_program_completed busOk w ev) ev data c hdata hc
  refine ⟨⟨w.db.nextId, c, "program_completion", "Completed Training Program",
      "You\x27ve successfully completed your training program!", "program_complete.png"⟩,
    ⟨w.db.nextId + 1, c, "program_completion", "Completed Training Program",
      "You\x27ve successfully completed your training program!", "program_complete.png"⟩,
    ?_, by show w.db.nextId ≠ w.db.nextId + 1; omega, rfl, rfl⟩
  rw [hdb2, hdb1]
  simp

/-- Witness for C3 at a concrete event and the empty store. -/
theorem program_completed_duplicate_achievements_witness :
    ∃ a1 a2 : Achievement,
      (handle_program_completed true (handle_program_completed true emptyWorld
        sampleProgramEvent) sampleProgramEvent).db.achievements
        = emptyWorld.db.achievements ++ [a1, a2] ∧
      a1.id ≠ a2.id ∧
      a1.achievement_type = "program_completion" ∧
      a2.achievement_type = "program_completion" :=
  program_completed_duplicate_achievements true emptyWorld sampleProgramEvent
    sampleProgramData "c1" rfl rfl

/-- C4: when the bus delivery raises, publish_event and the three shaped
publishers log the error and return normally with no correlation id, the
raise being confined to the try block: a delivery failure is never
propagated to any caller, and no message reaches the bus. -/
theorem publish_failure_fire_and_forget (w : World) (ch : String) (d : Json)
    (cid : Option String) (a : Achievement) (md pd : Json) :
    (∃ p, publish_event_try false w ch d cid = .error p) ∧
    (publish_event false w ch d cid).2 = none ∧
    (publish_event false w ch d cid).1.bus = w.bus ∧
    (publish_achievement_earned false w a cid).2 = none ∧
    (publish_milestone_reached false w md cid).2 = none ∧
    (publish_progress_updated false w pd cid).2 = none :=
  ⟨⟨_, rfl⟩, rfl, rfl, rfl, rfl, rfl⟩

/-- C5: a received data message whose payload fails to decode is caught
and logged, the loop state is unchanged and the loop keeps consuming, so
a valid booking.completed message delivered after a malformed one is
still dispatched to its handler. -/
theorem loop_survives_bad_message (busOk : Bool) (w : World) (m : BusMessage)
    (rest : List BusMessage) (hbad : decode m.payload = none) :
    runLoop busOk w (m :: rest) = runLoop busOk w rest ∧
    ∀ (m2 : BusMessage) (ev : Json), m2.mtype = "message" →
      m2.channel = "booking.completed" → decode m2.payload = some ev →
      runLoop busOk w [m, m2] = handle_booking_completed w ev := by
  have hskip : processMessage busOk w m = w := by
    unfold processMessage
    split
    · simp only [hbad]
    · rfl
  constructor
  · show (m :: rest).foldl (processMessage busOk) w = rest.foldl (processMessage busOk) w
    rw [List.foldl_cons, hskip]
  · intro m2 ev ht hch hdec
    show ([m, m2]).foldl (processMessage busOk) w = _
    rw [List.foldl_cons, hskip, List.foldl_cons, List.foldl_nil]
    simp [processMessage, ht, hch, hdec]

/-- Witness for C5: a malformed message followed by the sample booking
message leaves the loop processing exactly as if only the valid message
had arrived. -/
theorem loop_survives_bad_message_witness :
    runLoop true emptyWorld [malformedMessage, validBookingMessage]
      = runLoop true emptyWorld [validBookingMessage] :=
  (loop_survives_bad_message true emptyWorld malformedMessage
    [validBookingMessage] (by simp [malformedMessage, decode, decodeJson])).1

/-- C6: when a booking.completed event carries no booking_id (absent or
null), the idempotency query compares the column against SQL NULL and
never matches, so each delivery of an otherwise well-formed event inserts
a fresh WorkoutLog row with a null booking_id: duplicate deliveries
produce duplicate rows. -/
theorem null_booking_id_duplicate_rows (w : World) (ev data dur notes : Json)
    (c d : String) (dm : Option Int) (tn : Option String)
    (hdata : pyGet ev "data" (Json.obj JObj.nil) = .ok data)
    (hbnull : pyGet data "booking_id" Json.null = .ok Json.null)
    (hc : pyGet data "client_id" Json.null = .ok (Json.str c))
    (hd : pyGet data "workout_date" Json.null = .ok (Json.str d))
    (hdur : pyGet data "duration_minutes" (Json.num 60) = .ok dur)
    (hdm : asIntParam dur = .ok dm)
    (hnotes : pyGet data "trainer_notes" (Json.str "") = .ok notes)
    (htn : asTextParam notes = .ok tn) :
    (handle_booking_completed (handle_booking_completed w ev) ev).db.workout_logs
      = w.db.workout_logs ++
        [⟨w.db.nextId, c, none, d, Json.arr JArr.nil, dm, tn⟩,
         ⟨w.db.nextId + 1, c, none, d, Json.arr JArr.nil, dm, tn⟩] := by
  have h1 := handle_booking_insert w ev data Json.null dur notes none c d dm tn
    hdata hbnull rfl hc hd hdur hdm hnotes htn rfl
  rw [h1]
  have h2 := handle_booking_insert
    { w with db := { w.db with
        workout_logs := w.db.workout_logs ++
          [(⟨w.db.nextId, c, none, d, Json.arr JArr.nil, dm, tn⟩ : WorkoutLog)],
        nextId := w.db.nextId + 1 } }
    ev data Json.null dur notes none c d dm tn
    hdata hbnull rfl hc hd hdur hdm hnotes htn rfl
  rw [h2]
  simp

/-- Witness for C6 at a concrete event with no booking_id. -/
theorem null_booking_id_duplicate_rows_witness :
    (handle_booking_completed (handle_booking_completed emptyWorld
      sampleNullBookingEvent) sampleNullBookingEvent).db.workout_logs
      = emptyWorld.db.workout_logs ++
        [⟨emptyWorld.db.nextId, "c1", none, "2025-01-15", Json.arr JArr.nil, some 60, some ""⟩,
         ⟨emptyWorld.db.nextId + 1, "c1", none, "2025-01-15", Json.arr JArr.nil, some 60, some ""⟩] :=
  null_booking_id_duplicate_rows emptyWorld sampleNullBookingEvent
    sampleNullBookingData (Json.num 60) (Json.str "") "c1" "2025-01-15"
    (some 60) (some "") rfl rfl rfl rfl rfl rfl rfl rfl

/-- C7: a booking.completed event whose data omits duration_minutes and
trainer_notes, for a booking with no existing WorkoutLog, inserts a row
with total_duration_minutes 60, empty trainer_notes and an empty
exercises_completed list. -/
theorem booking_default_substitution (w : World) (ev : Json) (fs : JObj)
    (b c d : String)
    (hdata : pyGet ev "data" (Json.obj JObj.nil) = .ok (Json.obj fs))
    (hb : lookupKey fs "booking_id" = some (Json.str b))
    (hc : lookupKey fs "client_id" = some (Json.str c))
    (hd : lookupKey fs "workout_date" = some (Json.str d))
    (hnodur : lookupKey fs "duration_minutes" = none)
    (hnonotes : lookupKey fs "trainer_notes" = none)
    (hfresh : bookingCount w.db b = 0) :
    (handle_booking_completed w ev).db.workout_logs
      = w.db.workout_logs ++
        [⟨w.db.nextId, c, some b, d, Json.arr JArr.nil, some 60, some ""⟩] := by
  have h1 := handle_booking_insert w ev (Json.obj fs) (Json.str b) (Json.num 60)
    (Json.str "") (some b) c d (some 60) (some "")
    hdata (by simp [pyGet, hb]) (findWorkoutLog_str_none w.db b hfresh)
    (by simp [pyGet, hc]) (by simp [pyGet, hd]) (by simp [pyGet, hnodur])
    rfl (by simp [pyGet, hnonotes]) rfl rfl
  rw [h1]

/-- Witness for C7 at the sample booking event and the empty store. -/
theorem booking_default_substitution_witness :
    (handle_booking_completed emptyWorld sampleBookingEvent).db.workout_logs
      = emptyWorld.db.workout_logs ++
        [⟨emptyWorld.db.nextId, "c1", some "b1", "2025-01-15", Json.arr JArr.nil,
          some 60, some ""⟩] :=
  booking_default_substitution emptyWorld sampleBookingEvent
    (JObj.cons "booking_id" (Json.str "b1")
      (JObj.cons "client_id" (Json.str "c1")
        (JObj.cons "workout_date" (Json.str "2025-01-15") JObj.nil)))
    "b1" "c1" "2025-01-15" rfl rfl rfl rfl rfl rfl (by decide)

/-- C8: on a successful Achievement insert, the program handler publishes
exactly one achievement.earned event whose envelope data is the object
with keys achievement_id, client_id, type, title, description and
badge_icon shaped from the newly inserted row, the identity fields
coerced to strings. -/
theorem achievement_event_payload_exact (w : World) (ev data : Json) (c : String)
    (hdata : pyGet ev "data" (Json.obj JObj.nil) = .ok data)
    (hc : pyGet data "client_id" Json.null = .ok (Json.str c)) :
    (handle_program_completed true w ev).db.achievements = w.db.achievements ++
      [⟨w.db.nextId, c, "program_completion", "Completed Training Program",
        "You\x27ve successfully completed your training program!",
        "program_complete.png"⟩] ∧
    (handle_program_completed true w ev).bus = w.bus ++
      [("achievement.earned",
        encode (mkEnvelope "achievement.earned" w.now (genUuid w.uuidCtr)
          (Json.obj (JObj.cons "achievement_id" (Json.str (toString w.db.nextId))
            (JObj.cons "client_id" (Json.str c)
              (JObj.cons "type" (Json.str "program_completion")
                (JObj.cons "title" (Json.str "Completed Training Program")
                  (JObj.cons "description"
                    (Json.str "You\x27ve successfully completed your training program!")
                    (JObj.cons "badge_icon" (Json.str "program_complete.png")
                      JObj.nil)))))))))] := by
  rw [handle_program_insert true w ev data c hdata hc, publish_achievement_true]
  exact ⟨rfl, rfl⟩

/-- Witness for C8 at the sample program event and the empty store. -/
theorem achievement_event_payload_exact_witness :
    (handle_program_completed true emptyWorld sampleProgramEvent).db.achievements
      = emptyWorld.db.achievements ++
        [⟨emptyWorld.db.nextId, "c1", "program_completion", "Completed Training Program",
          "You\x27ve successfully completed your training program!",
          "program_complete.png"⟩] :=
  (achievement_event_payload_exact emptyWorld sampleProgramEvent
    sampleProgramData "c1" rfl rfl).1

/-- C9: for every envelope built from an event name, a timestamp, a
correlation id and any structured data payload, decoding the encoded
bytes yields the original envelope exactly: the codec round trip between
the Event Publisher and the Subscription Loop is lossless. -/
theorem envelope_round_trip (e t c : String) (d : Json) :
    decode (encode (mkEnvelope e t c d)) = some (mkEnvelope e t c d) :=
  decode_encode (mkEnvelope e t c d)

/-- C10: the booking handler publishes nothing: for every inbound event
the bus log and the correlation-id generator are untouched, no
achievement row appears, and the only store effect is the possible
insertion of a single workout-log row. -/
theorem booking_handler_no_downstream_publish (w : World) (ev : Json) :
    (handle_booking_completed w ev).bus = w.bus ∧
    (handle_booking_completed w ev).uuidCtr = w.uuidCtr ∧
    (handle_booking_completed w ev).db.achievements = w.db.achievements ∧
    ((handle_booking_completed w ev).db.workout_logs = w.db.workout_logs ∨
      ∃ r : WorkoutLog, (handle_booking_completed w ev).db.workout_logs
        = w.db.workout_logs ++ [r]) := by
  rcases handle_booking_body_cases w ev with ⟨e, hb⟩ | hb
    | ⟨bid, bOpt, c, d, dm, tn, _, _, hb⟩
  · simp only [handle_booking_completed, hb]
    exact ⟨trivial, trivial, trivial, Or.inl trivial⟩
  · simp only [handle_booking_completed, hb]
    exact ⟨trivial, trivial, trivial, Or.inl trivial⟩
  · simp only [handle_booking_completed, hb]
    exact ⟨trivial, trivial, trivial, Or.inr ⟨_, rfl⟩⟩
